import Mathlib

/-!
# Verification of the SE(3) geometric quadrotor controller

A shallow embedding of `rotorpy/controllers/quadrotor_control.py`
(class `SE3Control`) over the real numbers, together with proofs of the
specified properties.  Floating-point arithmetic in the source is modelled
by exact real arithmetic; `numpy` vectors of length 3 become the `Vec3`
structure, 3×3 `numpy` arrays become the `Mat3` structure, and the 4×4
allocation matrix uses Mathlib's `Matrix (Fin 4) (Fin 4) ℝ` so that
`np.linalg.inv` is modelled by Mathlib's matrix inverse.
-/

/-- A 3-vector, the model of a length-3 `numpy` array. -/
@[ext]
structure Vec3 where
  x : ℝ
  y : ℝ
  z : ℝ

namespace Vec3

instance : Zero Vec3 := ⟨⟨0, 0, 0⟩⟩
instance : Add Vec3 := ⟨fun a b => ⟨a.x + b.x, a.y + b.y, a.z + b.z⟩⟩
instance : Sub Vec3 := ⟨fun a b => ⟨a.x - b.x, a.y - b.y, a.z - b.z⟩⟩
instance : Neg Vec3 := ⟨fun a => ⟨-a.x, -a.y, -a.z⟩⟩
instance : SMul ℝ Vec3 := ⟨fun r a => ⟨r * a.x, r * a.y, r * a.z⟩⟩

@[simp] theorem zero_x : (0 : Vec3).x = 0 := rfl
@[simp] theorem zero_y : (0 : Vec3).y = 0 := rfl
@[simp] theorem zero_z : (0 : Vec3).z = 0 := rfl
@[simp] theorem add_def (a b : Vec3) : a + b = ⟨a.x + b.x, a.y + b.y, a.z + b.z⟩ := rfl
@[simp] theorem sub_def (a b : Vec3) : a - b = ⟨a.x - b.x, a.y - b.y, a.z - b.z⟩ := rfl
@[simp] theorem neg_def (a : Vec3) : -a = ⟨-a.x, -a.y, -a.z⟩ := rfl
@[simp] theorem smul_def (r : ℝ) (a : Vec3) : r • a = ⟨r * a.x, r * a.y, r * a.z⟩ := rfl

/-- Elementwise (Hadamard) product: the model of `numpy`'s `*` on vectors. -/
def emul (a b : Vec3) : Vec3 := ⟨a.x * b.x, a.y * b.y, a.z * b.z⟩

/-- The model of `np.dot` on 3-vectors. -/
def dot (a b : Vec3) : ℝ := a.x * b.x + a.y * b.y + a.z * b.z

/-- The model of `np.cross` on 3-vectors. -/
def cross (a b : Vec3) : Vec3 :=
  ⟨a.y * b.z - a.z * b.y, a.z * b.x - a.x * b.z, a.x * b.y - a.y * b.x⟩

/-- The model of `np.linalg.norm` on 3-vectors. -/
noncomputable def norm (v : Vec3) : ℝ := Real.sqrt (v.x ^ 2 + v.y ^ 2 + v.z ^ 2)

end Vec3

/-- `normalize` from `SE3Control.update`: `x / np.linalg.norm(x)`.
There is no guard: when the norm is zero the source divides by zero
(producing NaN/inf in floating point; here, Lean's zero-division
convention yields the zero vector). -/
noncomputable def SE3Control.normalize (v : Vec3) : Vec3 :=
  ⟨v.x / v.norm, v.y / v.norm, v.z / v.norm⟩

/-- A 3×3 real matrix (model of a 3×3 `numpy` array), entry `mIJ` in row I,
column J. -/
@[ext]
structure Mat3 where
  m00 : ℝ
  m01 : ℝ
  m02 : ℝ
  m10 : ℝ
  m11 : ℝ
  m12 : ℝ
  m20 : ℝ
  m21 : ℝ
  m22 : ℝ

namespace Mat3

instance : Zero Mat3 := ⟨⟨0, 0, 0, 0, 0, 0, 0, 0, 0⟩⟩

instance : Sub Mat3 :=
  ⟨fun A B =>
    ⟨A.m00 - B.m00, A.m01 - B.m01, A.m02 - B.m02,
     A.m10 - B.m10, A.m11 - B.m11, A.m12 - B.m12,
     A.m20 - B.m20, A.m21 - B.m21, A.m22 - B.m22⟩⟩

instance : SMul ℝ Mat3 :=
  ⟨fun r A =>
    ⟨r * A.m00, r * A.m01, r * A.m02,
     r * A.m10, r * A.m11, r * A.m12,
     r * A.m20, r * A.m21, r * A.m22⟩⟩

@[simp] theorem sub_entries (A B : Mat3) :
    A - B =
      ⟨A.m00 - B.m00, A.m01 - B.m01, A.m02 - B.m02,
       A.m10 - B.m10, A.m11 - B.m11, A.m12 - B.m12,
       A.m20 - B.m20, A.m21 - B.m21, A.m22 - B.m22⟩ := rfl

@[simp] theorem smul_entries (r : ℝ) (A : Mat3) :
    r • A =
      ⟨r * A.m00, r * A.m01, r * A.m02,
       r * A.m10, r * A.m11, r * A.m12,
       r * A.m20, r * A.m21, r * A.m22⟩ := rfl

/-- Matrix transpose. -/
def transpose (A : Mat3) : Mat3 :=
  ⟨A.m00, A.m10, A.m20, A.m01, A.m11, A.m21, A.m02, A.m12, A.m22⟩

/-- Matrix product (`@` between 3×3 `numpy` arrays). -/
def mul (A B : Mat3) : Mat3 :=
  ⟨A.m00 * B.m00 + A.m01 * B.m10 + A.m02 * B.m20,
   A.m00 * B.m01 + A.m01 * B.m11 + A.m02 * B.m21,
   A.m00 * B.m02 + A.m01 * B.m12 + A.m02 * B.m22,
   A.m10 * B.m00 + A.m11 * B.m10 + A.m12 * B.m20,
   A.m10 * B.m01 + A.m11 * B.m11 + A.m12 * B.m21,
   A.m10 * B.m02 + A.m11 * B.m12 + A.m12 * B.m22,
   A.m20 * B.m00 + A.m21 * B.m10 + A.m22 * B.m20,
   A.m20 * B.m01 + A.m21 * B.m11 + A.m22 * B.m21,
   A.m20 * B.m02 + A.m21 * B.m12 + A.m22 * B.m22⟩

/-- Matrix–vector product (`A @ v` for a 3×3 array and a 3-vector). -/
def mulVec (A : Mat3) (v : Vec3) : Vec3 :=
  ⟨A.m00 * v.x + A.m01 * v.y + A.m02 * v.z,
   A.m10 * v.x + A.m11 * v.y + A.m12 * v.z,
   A.m20 * v.x + A.m21 * v.y + A.m22 * v.z⟩

end Mat3

/-- `vee_map` from `SE3Control.update`: the vector corresponding to a given
skew-symmetric matrix, `np.array([-S[1,2], S[0,2], -S[0,1]])`. -/
def vee_map (S : Mat3) : Vec3 := ⟨-S.m12, S.m02, -S.m01⟩

/-- The skew-symmetric matrix of a 3-vector `v`: the matrix `S` with
`S[0,1] = -v.z`, `S[0,2] = v.y`, `S[1,2] = -v.x`, zero diagonal and
`S = -Sᵀ`.  (The inverse of `vee_map`; not itself in the source, stated
here as the spec describes it for the round-trip property.) -/
def skew_map (v : Vec3) : Mat3 :=
  ⟨0, -v.z, v.y, v.z, 0, -v.x, -v.y, v.x, 0⟩

/-- A quaternion in scipy's scalar-last `[i, j, k, w]` ordering. -/
structure Quat where
  x : ℝ
  y : ℝ
  z : ℝ
  w : ℝ

/-- Model of `Rotation.from_quat(q).as_matrix()` (scipy).  scipy normalizes
the quaternion on input and then applies the standard unit-quaternion
rotation-matrix formula; dividing each (quadratic) entry by the squared
norm `n` is the same thing. -/
noncomputable def quatToMat (q : Quat) : Mat3 :=
  let n := q.x ^ 2 + q.y ^ 2 + q.z ^ 2 + q.w ^ 2
  ⟨(q.x ^ 2 - q.y ^ 2 - q.z ^ 2 + q.w ^ 2) / n,
   2 * (q.x * q.y - q.z * q.w) / n,
   2 * (q.x * q.z + q.y * q.w) / n,
   2 * (q.x * q.y + q.z * q.w) / n,
   (-q.x ^ 2 + q.y ^ 2 - q.z ^ 2 + q.w ^ 2) / n,
   2 * (q.y * q.z - q.x * q.w) / n,
   2 * (q.x * q.z - q.y * q.w) / n,
   2 * (q.y * q.z + q.x * q.w) / n,
   (-q.x ^ 2 - q.y ^ 2 + q.z ^ 2 + q.w ^ 2) / n⟩

/-- The vehicle parameter dictionary consumed by `SE3Control.__init__`
(`quad_params`, keys specified in `rotorpy/vehicles`).  The rotor-position
dictionary is modelled as a map from the rotor index (insertion order of
the keys `r1, r2, …`) to the rotor's position. -/
structure QuadParams where
  mass : ℝ
  Ixx : ℝ
  Iyy : ℝ
  Izz : ℝ
  Ixy : ℝ
  Ixz : ℝ
  Iyz : ℝ
  c_Dx : ℝ
  c_Dy : ℝ
  c_Dz : ℝ
  num_rotors : ℕ
  rotor_pos : ℕ → Vec3
  rotor_speed_min : ℝ
  rotor_speed_max : ℝ
  k_eta : ℝ
  k_m : ℝ
  k_d : ℝ
  k_z : ℝ
  k_flap : ℝ
  tau_m : ℝ

/-- Entry `(i, j)` of the forward allocation matrix `f_to_TM` built in
`SE3Control.__init__`: `np.vstack` of a row of ones, the first two
components of `np.cross(rotor_pos[j], [0,0,1])` for each rotor, and the
alternating yaw-coefficient row `(k_m/k_eta) * (-1)**j`. -/
noncomputable def fToTMentry (p : QuadParams) (i : Fin 4) (j : ℕ) : ℝ :=
  ![(1 : ℝ),
    (Vec3.cross (p.rotor_pos j) ⟨0, 0, 1⟩).x,
    (Vec3.cross (p.rotor_pos j) ⟨0, 0, 1⟩).y,
    (p.k_m / p.k_eta) * (-1 : ℝ) ^ j] i

/-- The 4×N forward allocation matrix `self.f_to_TM` (N = `num_rotors`). -/
noncomputable def fToTM (p : QuadParams) : Matrix (Fin 4) (Fin p.num_rotors) ℝ :=
  Matrix.of fun i j => fToTMentry p i (j : ℕ)

/-- The allocation matrix read as a square 4×4 matrix (the shape
`np.linalg.inv` requires; identical to `fToTM` when `num_rotors = 4`). -/
noncomputable def fToTM4 (p : QuadParams) : Matrix (Fin 4) (Fin 4) ℝ :=
  Matrix.of fun i j => fToTMentry p i (j : ℕ)

/-- `self.TM_to_f = np.linalg.inv(self.f_to_TM)` (line 64). -/
noncomputable def TMtoF (p : QuadParams) : Matrix (Fin 4) (Fin 4) ℝ :=
  (fToTM4 p)⁻¹

/-- The construction-time failure of `SE3Control.__init__`:
`np.linalg.inv` raises `numpy.linalg.LinAlgError` when its argument is
not a square invertible matrix (non-square 4×N for `num_rotors ≠ 4`, or
singular).  This plays the role the spec calls `SingularAllocatorError`. -/
inductive InitError where
  | singularAllocator
deriving DecidableEq

/-- The state of a constructed `SE3Control` instance: the fields set by
`__init__` that `update` reads.  (The drag, inflow, flapping and motor
time-constant parameters are stored by the source but never read by
`update`; they are omitted from the model of the constructed state.) -/
structure SE3State where
  mass : ℝ
  inertia : Mat3
  g : ℝ
  kp_pos : Vec3
  kd_pos : Vec3
  kp_att : ℝ
  kd_att : ℝ
  k_eta : ℝ
  k_m : ℝ
  num_rotors : ℕ
  f_to_TM : Matrix (Fin 4) (Fin 4) ℝ
  TM_to_f : Matrix (Fin 4) (Fin 4) ℝ

/-- `SE3Control.__init__`: stores the parameters, the inertia tensor
assembled from its six components, `g = 9.81`, the fixed gains, and the
allocation matrix together with its inverse.  `np.linalg.inv` fails
(raises `LinAlgError`) exactly when the matrix is not square — i.e.
`num_rotors ≠ 4` — or its determinant is zero; this is modelled with
`Except`. -/
noncomputable def SE3Control.init (p : QuadParams) : Except InitError SE3State :=
  if p.num_rotors = 4 then
    if (fToTM4 p).det = 0 then
      .error .singularAllocator
    else
      .ok
        { mass := p.mass
          inertia :=
            ⟨p.Ixx, p.Ixy, p.Ixz,
             p.Ixy, p.Iyy, p.Iyz,
             p.Ixz, p.Iyz, p.Izz⟩
          g := 9.81
          kp_pos := ⟨6.5, 6.5, 15⟩
          kd_pos := ⟨4.0, 4.0, 9⟩
          kp_att := 544
          kd_att := 46.64
          k_eta := p.k_eta
          k_m := p.k_m
          num_rotors := p.num_rotors
          f_to_TM := fToTM4 p
          TM_to_f := TMtoF p }
  else
    .error .singularAllocator

/-- The per-step vehicle state passed to `update` (the `state` dict):
position, linear velocity, orientation quaternion `[i,j,k,w]`, and body
angular velocity. -/
structure VState where
  x : Vec3
  v : Vec3
  q : Quat
  w : Vec3

/-- The per-step desired flat output passed to `update` (the
`flat_output` dict): position and its derivatives through snap, yaw and
yaw rate. -/
structure FlatOutput where
  x : Vec3
  x_dot : Vec3
  x_ddot : Vec3
  x_dddot : Vec3
  x_ddddot : Vec3
  yaw : ℝ
  yaw_dot : ℝ

/-- The command dict returned by `update`.  `cmd_q` in the source is
`Rotation.from_matrix(R_des).as_quat()`; the quaternion is modelled here
by the rotation matrix `R_des` it represents (the quaternion is a pure
function of that matrix). -/
structure ControlInput where
  cmd_motor_speeds : Fin 4 → ℝ
  cmd_thrust : ℝ
  cmd_moment : Vec3
  cmd_q : Mat3

namespace SE3Control

/-- `F_des = mass * (-kp_pos*pos_err - kd_pos*dpos_err + x_ddot + [0,0,g])`
with `pos_err = state.x - flat_output.x`, `dpos_err = state.v -
flat_output.x_dot`. -/
noncomputable def Fdes (c : SE3State) (s : VState) (f : FlatOutput) : Vec3 :=
  c.mass •
    (-(Vec3.emul c.kp_pos (s.x - f.x)) - Vec3.emul c.kd_pos (s.v - f.x_dot)
      + f.x_ddot + ⟨0, 0, c.g⟩)

/-- `R = Rotation.from_quat(state.q).as_matrix()`. -/
noncomputable def Rmat (s : VState) : Mat3 := quatToMat s.q

/-- `b3 = R @ [0,0,1]`. -/
noncomputable def b3 (s : VState) : Vec3 := (Rmat s).mulVec ⟨0, 0, 1⟩

/-- `u1 = F_des . b3`: desired force projected on the current body z axis. -/
noncomputable def u1 (c : SE3State) (s : VState) (f : FlatOutput) : ℝ :=
  Vec3.dot (Fdes c s f) (b3 s)

/-- `b3_des = normalize(F_des)`. -/
noncomputable def b3des (c : SE3State) (s : VState) (f : FlatOutput) : Vec3 :=
  normalize (Fdes c s f)

/-- `c1_des = [cos(yaw_des), sin(yaw_des), 0]`. -/
noncomputable def c1des (f : FlatOutput) : Vec3 :=
  ⟨Real.cos f.yaw, Real.sin f.yaw, 0⟩

/-- `b2_des = normalize(cross(b3_des, c1_des))`. -/
noncomputable def b2des (c : SE3State) (s : VState) (f : FlatOutput) : Vec3 :=
  normalize (Vec3.cross (b3des c s f) (c1des f))

/-- `b1_des = cross(b2_des, b3_des)`. -/
noncomputable def b1des (c : SE3State) (s : VState) (f : FlatOutput) : Vec3 :=
  Vec3.cross (b2des c s f) (b3des c s f)

/-- `R_des = np.stack([b1_des, b2_des, b3_des]).T`: the desired rotation
matrix, with `b1_des, b2_des, b3_des` as columns. -/
noncomputable def Rdes (c : SE3State) (s : VState) (f : FlatOutput) : Mat3 :=
  ⟨(b1des c s f).x, (b2des c s f).x, (b3des c s f).x,
   (b1des c s f).y, (b2des c s f).y, (b3des c s f).y,
   (b1des c s f).z, (b2des c s f).z, (b3des c s f).z⟩

/-- `S_err = 0.5 * (R_des.T @ R - R.T @ R_des)`. -/
noncomputable def Serr (c : SE3State) (s : VState) (f : FlatOutput) : Mat3 :=
  (0.5 : ℝ) •
    (((Rdes c s f).transpose.mul (Rmat s)) - ((Rmat s).transpose.mul (Rdes c s f)))

/-- `att_err = vee_map(S_err)`. -/
noncomputable def attErr (c : SE3State) (s : VState) (f : FlatOutput) : Vec3 :=
  vee_map (Serr c s f)

/-- `w_err = state.w - [0, 0, yaw_dot]`. -/
def wErr (s : VState) (f : FlatOutput) : Vec3 :=
  s.w - ⟨0, 0, f.yaw_dot⟩

/-- `u2 = inertia @ (-kp_att*att_err - kd_att*w_err)`. -/
noncomputable def u2 (c : SE3State) (s : VState) (f : FlatOutput) : Vec3 :=
  c.inertia.mulVec (-(c.kp_att • attErr c s f) - c.kd_att • wErr s f)

/-- The per-rotor force vector `cmd_motor_forces = TM_to_f @ [u1, u2]`. -/
noncomputable def cmdMotorForces (c : SE3State) (s : VState) (f : FlatOutput) :
    Fin 4 → ℝ :=
  c.TM_to_f.mulVec
    ![u1 c s f, (u2 c s f).x, (u2 c s f).y, (u2 c s f).z]

/-- The force-to-speed conversion applied to each rotor (lines 142–143):
divide by `k_eta`, then take the sign-preserving square root
`np.sign(x) * np.sqrt(np.abs(x))`. -/
noncomputable def motorSpeedOfForce (k_eta fr : ℝ) : ℝ :=
  Real.sign (fr / k_eta) * Real.sqrt |fr / k_eta|

/-- `SE3Control.update(t, state, flat_output)`: the per-step control law.
`t` is accepted but never read; the method reads only the construction-time
fields and its two per-step arguments, and assigns no attribute. -/
noncomputable def update (c : SE3State) (t : ℝ) (s : VState) (f : FlatOutput) :
    ControlInput :=
  { cmd_motor_speeds := fun i => motorSpeedOfForce c.k_eta (cmdMotorForces c s f i)
    cmd_thrust := u1 c s f
    cmd_moment := u2 c s f
    cmd_q := Rdes c s f }

end SE3Control

/-! ## Concrete inputs used by the witnesses -/

/-- A well-posed concrete 4-rotor geometry: rotors at `(±1, ±1, 0)` in the
standard alternating order, `k_eta = k_m = 1`. -/
noncomputable def pGood : QuadParams :=
  { mass := 1, Ixx := 1, Iyy := 1, Izz := 1, Ixy := 0, Ixz := 0, Iyz := 0
    c_Dx := 0, c_Dy := 0, c_Dz := 0
    num_rotors := 4
    rotor_pos := fun j =>
      match j with
      | 0 => ⟨1, 1, 0⟩
      | 1 => ⟨-1, 1, 0⟩
      | 2 => ⟨-1, -1, 0⟩
      | _ => ⟨1, -1, 0⟩
    rotor_speed_min := 0, rotor_speed_max := 1000
    k_eta := 1, k_m := 1, k_d := 0, k_z := 0, k_flap := 0, tau_m := 0 }

/-- `pGood` with a negative mass and a non-positive-definite inertia tensor:
physically inconsistent parameters on a valid rotor geometry. -/
noncomputable def pBadMass : QuadParams :=
  { pGood with mass := -1, Ixx := -1 }

/-- A degenerate geometry: every rotor at the origin (the moment-arm rows
of the allocation matrix vanish). -/
noncomputable def pZeroPos : QuadParams :=
  { pGood with rotor_pos := fun _ => ⟨0, 0, 0⟩ }

/-- An over-actuated layout: five rotors. -/
noncomputable def pFive : QuadParams :=
  { pGood with num_rotors := 5 }

/-- The allocation matrix of the `pGood` geometry has determinant `-16`. -/
theorem fToTM4_pGood_det : (fToTM4 pGood).det = -16 := by
  simp [fToTM4, fToTMentry, pGood, Vec3.cross, Matrix.det_succ_row_zero,
    Fin.sum_univ_succ, Matrix.det_fin_three, Fin.succAbove, Fin.lt_def]
  norm_num

/-- `pBadMass` has the same allocation matrix as `pGood`. -/
theorem fToTM4_pBadMass_eq : fToTM4 pBadMass = fToTM4 pGood := rfl

/-! ## The claims -/

/-- C9: applying the vee map to the skew-symmetric matrix of a 3-vector `v`
returns `v` exactly: `vee_map (skew_map v) = v`. -/
theorem C9_vee_skew_roundtrip (v : Vec3) : vee_map (skew_map v) = v := by
  ext <;> simp [vee_map, skew_map]

/-- C8: `update` is a pure, deterministic function of `(state, flat_output)`
and the fixed construction-time fields: the time argument `t` is never read,
so any two calls with identical `state` and `flat_output` return identical
outputs whatever `t` is; and the embedding is a pure function of the
(immutable) controller value because the source method assigns no attribute. -/
theorem C8_update_pure (c : SE3State) (t t' : ℝ) (s : VState) (f : FlatOutput) :
    SE3Control.update c t s f = SE3Control.update c t' s f := rfl

/-- C6 counterexample: with `k_eta = 4` and allocated force `f = 4`, the
computed speed is `s = sign(1)·√1 = 1` and `sign(s)·s² = 1 ≠ 4`:
squaring the speed and restoring its sign does not recover the force. -/
theorem C6_counterexample :
    ¬ (Real.sign (SE3Control.motorSpeedOfForce 4 4) *
        SE3Control.motorSpeedOfForce 4 4 ^ 2 = 4) := by
  have h : SE3Control.motorSpeedOfForce 4 4 = 1 := by
    unfold SE3Control.motorSpeedOfForce
    norm_num [Real.sign_one]
  rw [h, Real.sign_one]
  norm_num

/-- C6 (amended): the computed motor speed
`s = sign(f/k_eta)·√|f/k_eta|` satisfies `sign(s)·s² = f / k_eta` for every
real force `f` and coefficient `k_eta`: the signed square root is lossless
in magnitude up to the fixed `k_eta` scaling (the quantity recovered is the
squared-speed demand `f/k_eta`, not the force itself). -/
theorem C6_signed_sqrt_lossless (k_eta fr : ℝ) :
    Real.sign (SE3Control.motorSpeedOfForce k_eta fr) *
      SE3Control.motorSpeedOfForce k_eta fr ^ 2 = fr / k_eta := by
  unfold SE3Control.motorSpeedOfForce
  rcases lt_trichotomy (fr / k_eta) 0 with h | h | h
  · have habs : |fr / k_eta| = -(fr / k_eta) := abs_of_neg h
    have hsq : Real.sqrt (-(fr / k_eta)) ^ 2 = -(fr / k_eta) :=
      Real.sq_sqrt (by linarith)
    have hpos : 0 < Real.sqrt (-(fr / k_eta)) :=
      Real.sqrt_pos.mpr (by linarith)
    have hs : Real.sign (Real.sign (fr / k_eta) * Real.sqrt (-(fr / k_eta))) = -1 := by
      apply Real.sign_of_neg
      rw [Real.sign_of_neg h]
      nlinarith
    rw [habs, hs, Real.sign_of_neg h]
    nlinarith
  · rw [h]
    simp [Real.sign_zero]
  · have habs : |fr / k_eta| = fr / k_eta := abs_of_pos h
    have hsq : Real.sqrt (fr / k_eta) ^ 2 = fr / k_eta :=
      Real.sq_sqrt (le_of_lt h)
    have hpos : 0 < Real.sqrt (fr / k_eta) :=
      Real.sqrt_pos.mpr h
    have hs : Real.sign (Real.sign (fr / k_eta) * Real.sqrt (fr / k_eta)) = 1 := by
      apply Real.sign_of_pos
      rw [Real.sign_of_pos h]
      nlinarith
    rw [habs, hs, Real.sign_of_pos h]
    nlinarith

/-- C4: for every parameter set, the forward allocation matrix is 4×N with
row 0 all ones; rows 1 and 2 carrying, for each rotor `j`, the x and y
components of `cross(rotor_pos_j, [0,0,1])` (which are `rotor_pos_j.y` and
`-rotor_pos_j.x`); and row 3 entry `j` equal to `(k_m/k_eta)·(-1)^j`. -/
theorem C4_fToTM_rows (p : QuadParams) (j : Fin p.num_rotors) :
    fToTM p 0 j = 1 ∧
    fToTM p 1 j = (Vec3.cross (p.rotor_pos j) ⟨0, 0, 1⟩).x ∧
    fToTM p 2 j = (Vec3.cross (p.rotor_pos j) ⟨0, 0, 1⟩).y ∧
    fToTM p 3 j = p.k_m / p.k_eta * (-1 : ℝ) ^ (j : ℕ) ∧
    (Vec3.cross (p.rotor_pos j) ⟨0, 0, 1⟩).x = (p.rotor_pos j).y ∧
    (Vec3.cross (p.rotor_pos j) ⟨0, 0, 1⟩).y = -(p.rotor_pos j).x := by
  refine ⟨?_, ?_, ?_, ?_, ?_, ?_⟩ <;>
    simp [fToTM, fToTMentry, Vec3.cross]

/-- C3: whenever the allocation matrix is not invertible — the rotor count
is not 4 (so the 4×N matrix is not square), or the square matrix is
singular — `SE3Control.__init__` fails with the singular-allocator error
(`np.linalg.inv` raises `LinAlgError`), during construction itself and not
deferred to `update`. -/
theorem C3_singular_allocator_fails (p : QuadParams)
    (h : p.num_rotors ≠ 4 ∨ (fToTM4 p).det = 0) :
    SE3Control.init p = .error .singularAllocator := by
  unfold SE3Control.init
  rcases h with h | h
  · rw [if_neg h]
  · by_cases h4 : p.num_rotors = 4
    · rw [if_pos h4, if_pos h]
    · rw [if_neg h4]

/-- C3 witness: with all four rotors at the origin, the moment-arm rows
vanish, the allocation matrix is singular, and construction fails. -/
theorem C3_singular_allocator_fails_witness :
    SE3Control.init pZeroPos = .error .singularAllocator := by
  apply C3_singular_allocator_fails
  right
  apply Matrix.det_eq_zero_of_row_eq_zero 1
  intro j
  simp [fToTM4, fToTMentry, pZeroPos, Vec3.cross]

/-- C10: construction succeeds only with exactly four rotors: a successful
`__init__` implies `num_rotors = 4`, and any other rotor count — including
over-actuated `N > 4` layouts of full row rank — fails at construction,
because `np.linalg.inv` is applied to the 4×N allocation matrix, which must
be square. -/
theorem C10_requires_four_rotors (p : QuadParams) :
    (∀ c, SE3Control.init p = .ok c → p.num_rotors = 4) ∧
    (p.num_rotors ≠ 4 → SE3Control.init p = .error .singularAllocator) := by
  constructor
  · intro c hc
    by_contra h4
    unfold SE3Control.init at hc
    rw [if_neg h4] at hc
    exact Except.noConfusion hc
  · intro h4
    unfold SE3Control.init
    rw [if_neg h4]

/-- C10 witness: a five-rotor layout is rejected at construction. -/
theorem C10_requires_four_rotors_witness :
    SE3Control.init pFive = .error .singularAllocator :=
  (C10_requires_four_rotors pFive).2 (by norm_num [pFive, pGood])

/-- C7 counterexample: `pBadMass` has negative mass and a
non-positive-definite inertia tensor, yet construction completes
successfully (the source validates neither mass nor inertia). -/
theorem C7_counterexample :
    pBadMass.mass ≤ 0 ∧ pBadMass.Ixx < 0 ∧
      (SE3Control.init pBadMass).isOk = true := by
  refine ⟨by norm_num [pBadMass, pGood], by norm_num [pBadMass, pGood], ?_⟩
  have hdet : (fToTM4 pBadMass).det ≠ 0 := by
    rw [fToTM4_pBadMass_eq, fToTM4_pGood_det]
    norm_num
  unfold SE3Control.init
  rw [if_pos (show pBadMass.num_rotors = 4 from rfl), if_neg hdet]
  rfl

/-- C7 (amended): construction validates neither mass nor inertia; it fails
only through the allocator check.  For every parameter set with
`num_rotors = 4` and an invertible allocation matrix, construction
completes successfully — including on physically inconsistent inputs such
as non-positive mass or non-positive-definite inertia. -/
theorem C7_no_param_validation (p : QuadParams)
    (h4 : p.num_rotors = 4) (hdet : (fToTM4 p).det ≠ 0) :
    (SE3Control.init p).isOk = true := by
  unfold SE3Control.init
  rw [if_pos h4, if_neg hdet]
  rfl

/-- C7 witness: the amended statement applied to the negative-mass input. -/
theorem C7_no_param_validation_witness :
    (SE3Control.init pBadMass).isOk = true := by
  apply C7_no_param_validation pBadMass rfl
  rw [fToTM4_pBadMass_eq, fToTM4_pGood_det]
  norm_num

/-- C5: for every rotor geometry whose allocation matrix is invertible, the
forward matrix composed with the stored inverse is the identity, on both
sides (exactly, in real arithmetic). -/
theorem C5_forward_inverse_identity (p : QuadParams)
    (hdet : (fToTM4 p).det ≠ 0) :
    fToTM4 p * TMtoF p = 1 ∧ TMtoF p * fToTM4 p = 1 := by
  have h : IsUnit (fToTM4 p).det := isUnit_iff_ne_zero.mpr hdet
  exact ⟨Matrix.mul_nonsing_inv _ h, Matrix.nonsing_inv_mul _ h⟩

/-- C5 witness: the identity for the concrete `pGood` geometry, whose
determinant is `-16`. -/
theorem C5_forward_inverse_identity_witness :
    fToTM4 pGood * TMtoF pGood = 1 ∧ TMtoF pGood * fToTM4 pGood = 1 :=
  C5_forward_inverse_identity pGood (by rw [fToTM4_pGood_det]; norm_num)

/-! ## Per-step inputs used by the witnesses -/

/-- A constructed controller value with unit mass, identity inertia and the
gains `__init__` hard-codes. -/
noncomputable def cW : SE3State :=
  { mass := 1
    inertia := ⟨1, 0, 0, 0, 1, 0, 0, 0, 1⟩
    g := 9.81
    kp_pos := ⟨6.5, 6.5, 15⟩
    kd_pos := ⟨4.0, 4.0, 9⟩
    kp_att := 544
    kd_att := 46.64
    k_eta := 1
    k_m := 1
    num_rotors := 4
    f_to_TM := fToTM4 pGood
    TM_to_f := TMtoF pGood }

/-- A hover state: at the origin, at rest, level (identity quaternion), not
rotating. -/
noncomputable def sHov : VState :=
  { x := ⟨0, 0, 0⟩, v := ⟨0, 0, 0⟩, q := ⟨0, 0, 0, 1⟩, w := ⟨0, 0, 0⟩ }

/-- The hover flat output: hold the origin with zero derivatives and zero
yaw. -/
noncomputable def fHov : FlatOutput :=
  { x := ⟨0, 0, 0⟩, x_dot := ⟨0, 0, 0⟩, x_ddot := ⟨0, 0, 0⟩
    x_dddot := ⟨0, 0, 0⟩, x_ddddot := ⟨0, 0, 0⟩, yaw := 0, yaw_dot := 0 }

/-- A free-fall flat output: the feedforward acceleration `[0,0,-9.81]`
exactly cancels gravity compensation, so the desired force vanishes. -/
noncomputable def fFF : FlatOutput :=
  { x := ⟨0, 0, 0⟩, x_dot := ⟨0, 0, 0⟩, x_ddot := ⟨0, 0, -9.81⟩
    x_dddot := ⟨0, 0, 0⟩, x_ddddot := ⟨0, 0, 0⟩, yaw := 0, yaw_dot := 0 }

/-! ## Helper lemmas about the hover regime -/

/-- With zero position, velocity and feedforward-acceleration error, the
desired force reduces to pure weight compensation `[0, 0, mass·g]`. -/
theorem Fdes_hover (c : SE3State) (s : VState) (f : FlatOutput)
    (hx : s.x = f.x) (hv : s.v = f.x_dot) (ha : f.x_ddot = 0) :
    SE3Control.Fdes c s f = ⟨0, 0, c.mass * c.g⟩ := by
  unfold SE3Control.Fdes
  rw [hx, hv, ha]
  ext <;> simp [Vec3.emul] <;> ring

/-- The norm of a vertical vector with nonnegative component. -/
theorem norm_vertical (m : ℝ) (hm : 0 ≤ m) : Vec3.norm ⟨0, 0, m⟩ = m := by
  unfold Vec3.norm
  simp only
  rw [show (0 : ℝ) ^ 2 + 0 ^ 2 + m ^ 2 = m ^ 2 by ring]
  exact Real.sqrt_sq hm

/-- In the hover regime with positive mass and positive `g`, the desired
body z axis is the world vertical. -/
theorem b3des_hover (c : SE3State) (s : VState) (f : FlatOutput)
    (hm : 0 < c.mass) (hg : 0 < c.g)
    (hx : s.x = f.x) (hv : s.v = f.x_dot) (ha : f.x_ddot = 0) :
    SE3Control.b3des c s f = ⟨0, 0, 1⟩ := by
  have hmg : 0 < c.mass * c.g := mul_pos hm hg
  unfold SE3Control.b3des SE3Control.normalize
  rw [Fdes_hover c s f hx hv ha, norm_vertical _ hmg.le]
  ext <;> simp [div_self hmg.ne']

/-- In the hover regime, the desired rotation matrix is the pure-yaw
rotation about the world vertical. -/
theorem Rdes_hover (c : SE3State) (s : VState) (f : FlatOutput)
    (hm : 0 < c.mass) (hg : 0 < c.g)
    (hx : s.x = f.x) (hv : s.v = f.x_dot) (ha : f.x_ddot = 0) :
    SE3Control.Rdes c s f =
      ⟨Real.cos f.yaw, -Real.sin f.yaw, 0,
       Real.sin f.yaw, Real.cos f.yaw, 0,
       0, 0, 1⟩ := by
  have hb3 := b3des_hover c s f hm hg hx hv ha
  have hcross :
      Vec3.cross (SE3Control.b3des c s f) (SE3Control.c1des f) =
        ⟨-Real.sin f.yaw, Real.cos f.yaw, 0⟩ := by
    rw [hb3]
    unfold SE3Control.c1des
    ext <;> simp [Vec3.cross]
  have hnorm :
      Vec3.norm ⟨-Real.sin f.yaw, Real.cos f.yaw, 0⟩ = 1 := by
    unfold Vec3.norm
    simp only
    rw [show (-Real.sin f.yaw) ^ 2 + Real.cos f.yaw ^ 2 + (0 : ℝ) ^ 2 =
        Real.sin f.yaw ^ 2 + Real.cos f.yaw ^ 2 by ring,
      Real.sin_sq_add_cos_sq]
    exact Real.sqrt_one
  have hb2 : SE3Control.b2des c s f = ⟨-Real.sin f.yaw, Real.cos f.yaw, 0⟩ := by
    unfold SE3Control.b2des SE3Control.normalize
    rw [hcross, hnorm]
    ext <;> simp
  have hb1 : SE3Control.b1des c s f = ⟨Real.cos f.yaw, Real.sin f.yaw, 0⟩ := by
    unfold SE3Control.b1des
    rw [hb2, hb3]
    ext <;> simp [Vec3.cross]
  unfold SE3Control.Rdes
  rw [hb1, hb2, hb3]

/-- C1: in any call to `update` with zero position error, zero velocity
error, zero angular velocity, the current orientation equal to the desired
one, and zero desired acceleration and yaw rate, the returned `cmd_thrust`
equals `mass · g` and the returned `cmd_moment` is the zero vector (for a
physically meaningful positive `mass` and positive `g`). -/
theorem C1_hover_equilibrium (c : SE3State) (t : ℝ) (s : VState) (f : FlatOutput)
    (hm : 0 < c.mass) (hg : 0 < c.g)
    (hx : s.x = f.x) (hv : s.v = f.x_dot) (hw : s.w = 0)
    (ha : f.x_ddot = 0) (hyd : f.yaw_dot = 0)
    (hR : quatToMat s.q = SE3Control.Rdes c s f) :
    (SE3Control.update c t s f).cmd_thrust = c.mass * c.g ∧
    (SE3Control.update c t s f).cmd_moment = 0 := by
  have hF := Fdes_hover c s f hx hv ha
  have hb3des := b3des_hover c s f hm hg hx hv ha
  have hRm : SE3Control.Rmat s = SE3Control.Rdes c s f := hR
  have hb3 : SE3Control.b3 s = ⟨0, 0, 1⟩ := by
    unfold SE3Control.b3
    rw [hRm]
    unfold SE3Control.Rdes
    rw [hb3des]
    ext <;> simp [Mat3.mulVec]
  have hthrust : SE3Control.u1 c s f = c.mass * c.g := by
    unfold SE3Control.u1
    rw [hF, hb3]
    simp [Vec3.dot]
  have hatt : SE3Control.attErr c s f = 0 := by
    unfold SE3Control.attErr SE3Control.Serr
    rw [hRm]
    ext <;> simp [vee_map, Mat3.mul, Mat3.transpose] <;> ring
  have hwerr : SE3Control.wErr s f = 0 := by
    unfold SE3Control.wErr
    rw [hw, hyd]
    ext <;> simp
  have hmoment : SE3Control.u2 c s f = 0 := by
    unfold SE3Control.u2
    rw [hatt, hwerr]
    ext <;> simp [Mat3.mulVec]
  exact ⟨hthrust, hmoment⟩

/-- C1 witness: the hover equilibrium at the origin with the identity
orientation, for the unit-mass controller. -/
theorem C1_hover_equilibrium_witness :
    (SE3Control.update cW 0 sHov fHov).cmd_thrust = cW.mass * cW.g ∧
    (SE3Control.update cW 0 sHov fHov).cmd_moment = 0 := by
  have hR : quatToMat sHov.q = SE3Control.Rdes cW sHov fHov := by
    rw [Rdes_hover cW sHov fHov (by norm_num [cW]) (by norm_num [cW]) rfl rfl rfl]
    ext <;> simp [quatToMat, sHov, fHov]
  exact C1_hover_equilibrium cW 0 sHov fHov (by norm_num [cW]) (by norm_num [cW])
    rfl rfl rfl rfl rfl hR

/-! ## The degenerate desired-force path -/

/-- Normalizing the zero vector divides zero by zero; under Lean's
zero-division convention the result is the zero vector (the floating-point
source produces NaN here). -/
theorem normalize_zero_vec : SE3Control.normalize 0 = 0 := by
  ext <;> simp [SE3Control.normalize]

/-- The cross product with a zero left factor vanishes. -/
theorem cross_zero_left (b : Vec3) : Vec3.cross 0 b = 0 := by
  ext <;> simp [Vec3.cross]

/-- When the desired force vanishes, every derived desired axis is the
degenerate zero vector and the desired rotation matrix is the zero matrix:
no guard intervenes anywhere on this path. -/
theorem Rdes_degenerate (c : SE3State) (s : VState) (f : FlatOutput)
    (h : SE3Control.Fdes c s f = 0) :
    SE3Control.b3des c s f = 0 ∧ SE3Control.Rdes c s f = 0 := by
  have hb3 : SE3Control.b3des c s f = 0 := by
    unfold SE3Control.b3des
    rw [h, normalize_zero_vec]
  have hb2 : SE3Control.b2des c s f = 0 := by
    unfold SE3Control.b2des
    rw [hb3, cross_zero_left, normalize_zero_vec]
  have hb1 : SE3Control.b1des c s f = 0 := by
    unfold SE3Control.b1des
    rw [hb2, cross_zero_left]
  refine ⟨hb3, ?_⟩
  unfold SE3Control.Rdes
  rw [hb1, hb2, hb3]
  ext <;> rfl

/-- C2 (amended): `update` performs no degenerate-force check and raises no
warning: whenever `F_des` is the zero vector (e.g. a free-fall reference
that exactly cancels gravity compensation with zero errors), `normalize`
divides by a zero norm and the degenerate result propagates into the output
— the desired thrust axis is the zero vector, not any unit fallback
direction, and the returned desired attitude (`cmd_q`) is the zero matrix,
which represents no orientation.  (In the floating-point source the same
path produces NaN; there is no flagged result and no fallback.) -/
theorem C2_no_degenerate_force_guard (c : SE3State) (t : ℝ) (s : VState)
    (f : FlatOutput) (h : SE3Control.Fdes c s f = 0) :
    SE3Control.b3des c s f = 0 ∧
    (SE3Control.update c t s f).cmd_q = (0 : Mat3) :=
  ⟨(Rdes_degenerate c s f h).1, (Rdes_degenerate c s f h).2⟩

/-- The free-fall input makes the desired force vanish exactly. -/
theorem Fdes_freefall : SE3Control.Fdes cW sHov fFF = 0 := by
  unfold SE3Control.Fdes
  ext <;> simp [cW, sHov, fFF, Vec3.emul]

/-- C2 counterexample: on the free-fall reference (zero position and
velocity error, `x_ddot = [0,0,-g]`), the desired force is exactly zero,
yet `update` returns the degenerate zero vector as desired thrust axis and
the zero matrix as desired attitude — there is no fallback orientation and
no reportable warning; the not-a-number hazard of the source is reached,
not guarded. -/
theorem C2_counterexample :
    SE3Control.Fdes cW sHov fFF = 0 ∧
    SE3Control.b3des cW sHov fFF = 0 ∧
    (SE3Control.update cW 0 sHov fFF).cmd_q = (0 : Mat3) :=
  ⟨Fdes_freefall, (Rdes_degenerate cW sHov fFF Fdes_freefall).1,
    (Rdes_degenerate cW sHov fFF Fdes_freefall).2⟩

/-- C2 witness: the amended no-guard statement applied to the concrete
free-fall input. -/
theorem C2_no_degenerate_force_guard_witness :
    SE3Control.b3des cW sHov fFF = 0 ∧
    (SE3Control.update cW 0 sHov fFF).cmd_q = (0 : Mat3) :=
  C2_no_degenerate_force_guard cW 0 sHov fFF Fdes_freefall
